import Mathlib

/-!
Verification of `cmd/main.go` from adcondev/go-database.

The repository implements two file-save strategies:
 - `SaveData1` (InPlaceWriter): mkdir, open with create+truncate, write, sync;
 - `SaveData2` (AtomicReplaceWriter): mkdir, exclusive-create of a temp file
   `path+file+".tmp."+stamp`, write, sync, then `os.Rename(tmp, path)`, with a
   deferred `os.Remove(tmp)` that runs only when the local variable `err` is
   non-nil at return time.

The filesystem is modelled as a map from path strings to optional byte
contents plus a set of directories; the nondeterministic environment (the OS
and the process RNG) is an explicit oracle prescribing which system calls
fail, how many bytes a write call transfers, and the random stamp.
-/

/-- Byte payloads are sequences of bytes, modelled as lists of naturals. -/
abbrev Content := List Nat

/-- Errors a save call may return.  The four sentinel values mirror the Go
package-level variables `WriteErr`, `OpenErr`, `SyncErr`, `FolderErr`; `osErr`
stands for a raw OS error value (a Go `*PathError` or `*LinkError`) returned
unwrapped, tagged by the operation that produced it. -/
inductive GoError where
  | writeErr
  | openErr
  | syncErr
  | folderErr
  | osErr (op : String)
deriving DecidableEq, Repr

/-- Equality of save results is decidable. -/
instance : DecidableEq (Except GoError Unit) := fun a b =>
  match a, b with
  | .ok (), .ok () => isTrue rfl
  | .error e₁, .error e₂ =>
    match decEq e₁ e₂ with
    | isTrue h => isTrue (h ▸ rfl)
    | isFalse h => isFalse (fun hc => h (Except.error.inj hc))
  | .ok (), .error _ => isFalse (fun hc => Except.noConfusion hc)
  | .error _, .ok () => isFalse (fun hc => Except.noConfusion hc)

/-- A filesystem state: regular files as a map from path to content, and the
set of existing directories. -/
structure FS where
  files : String → Option Content
  dirs : String → Bool

/-- Content of the regular file at `p`, if one exists. -/
def FS.read (fs : FS) (p : String) : Option Content :=
  fs.files p

/-- Whether a regular file exists at `p`. -/
def FS.fileExists (fs : FS) (p : String) : Bool :=
  (fs.files p).isSome

/-- Whether a directory exists at `p`. -/
def FS.isDir (fs : FS) (p : String) : Bool :=
  fs.dirs p

/-- Effect of a successful `os.MkdirAll d`: the directory exists afterwards;
regular files are untouched. -/
def FS.mkdirAll (fs : FS) (d : String) : FS :=
  ⟨fs.files, fun p => if p = d then true else fs.dirs p⟩

/-- Effect of setting the regular file at `q` to content `c` (create or
replace). -/
def FS.writeFile (fs : FS) (q : String) (c : Content) : FS :=
  ⟨fun p => if p = q then some c else fs.files p, fs.dirs⟩

/-- Effect of a successful `os.Remove q` on a regular file. -/
def FS.removeFile (fs : FS) (q : String) : FS :=
  ⟨fun p => if p = q then none else fs.files p, fs.dirs⟩

/-- Effect of a successful `os.Rename a b`: the entry at `b` now holds what
was at `a`, and `a` is gone. -/
def FS.rename (fs : FS) (a b : String) : FS :=
  ⟨fun p => if p = b then fs.files a else if p = a then none else fs.files p,
   fs.dirs⟩

/-- The nondeterministic environment of one save call: the RNG stamp and the
outcome the OS gives each system call.  `nWritten` is the byte count the
write call transfers (capped at the payload length); Go's `File.Write`
returns a non-nil error exactly when an I/O error occurs or the count falls
short of the payload length. -/
structure Oracle where
  stamp : Nat
  mkdirOk : Bool
  openOk : Bool
  nWritten : Nat
  writeIOErr : Bool
  syncOk : Bool
  renameOsOk : Bool

/-- `SaveData1` from `cmd/main.go` (InPlaceWriter): `os.MkdirAll` (failure →
`FolderErr`), `os.OpenFile(path+file, O_WRONLY|O_CREATE|O_TRUNC)` (failure →
`OpenErr`; truncates on open), `fp.Write(data)` (non-nil error → `WriteErr`),
then `return fp.Sync()` — note the sync error is returned raw, not mapped to
the `SyncErr` sentinel.  Opening a directory path for writing fails at the OS
level. -/
def SaveData1 (path file : String) (data : Content) (fs : FS) (o : Oracle) :
    Except GoError Unit × FS :=
  if o.mkdirOk = false then (.error .folderErr, fs)
  else
    let fs1 := fs.mkdirAll path
    if o.openOk = false ∨ fs1.isDir (path ++ file) = true then
      (.error .openErr, fs1)
    else
      let fs2 := fs1.writeFile (path ++ file) []
      let n := min o.nWritten data.length
      let fs3 := fs2.writeFile (path ++ file) (data.take n)
      if o.writeIOErr = true ∨ n < data.length then (.error .writeErr, fs3)
      else if o.syncOk = false then (.error (.osErr "sync"), fs3)
      else (.ok (), fs3)

/-- The temporary file name of `SaveData2`:
`tmp := fmt.Sprintf("%s.tmp.%s", path+file, strconv.Itoa(rand.Int()))`. -/
def tmpName (path file : String) (stamp : Nat) : String :=
  path ++ file ++ ".tmp." ++ toString stamp

/-- `SaveData2` from `cmd/main.go` (AtomicReplaceWriter), returning the
result, the final filesystem, and the list of intermediate filesystem states
after each state-changing step (the instants a concurrent reader could
observe).  Steps: `os.MkdirAll` (failure → `FolderErr`);
`os.OpenFile(tmp, O_WRONLY|O_CREATE|O_EXCL)`, which fails if `tmp` already
exists (failure → `OpenErr`); `fp.Write(data)` (non-nil error → `WriteErr`);
`fp.Sync()` (failure → `SyncErr`); finally `return os.Rename(tmp, path)` —
the destination is the string `path`, the directory just ensured by
`MkdirAll`, so at the OS level the rename fails (EISDIR) whenever that
directory exists.  The deferred closure removes `tmp` only when the local
variable `err` is non-nil at return time; the rename's result is never
assigned to `err`, so on the rename path no cleanup runs. -/
def SaveData2Run (path file : String) (data : Content) (fs : FS) (o : Oracle) :
    Except GoError Unit × FS × List FS :=
  let tmp := tmpName path file o.stamp
  if o.mkdirOk = false then (.error .folderErr, fs, [])
  else
    let fs1 := fs.mkdirAll path
    if o.openOk = false ∨ fs1.isDir tmp = true ∨ fs1.fileExists tmp = true then
      (.error .openErr, fs1, [fs1])
    else
      let fs2 := fs1.writeFile tmp []
      let n := min o.nWritten data.length
      let fs3 := fs2.writeFile tmp (data.take n)
      if o.writeIOErr = true ∨ n < data.length then
        (.error .writeErr, fs3.removeFile tmp, [fs1, fs2, fs3, fs3.removeFile tmp])
      else if o.syncOk = false then
        (.error .syncErr, fs3.removeFile tmp, [fs1, fs2, fs3, fs3.removeFile tmp])
      else if fs3.isDir path = true ∨ o.renameOsOk = false then
        (.error (.osErr "rename"), fs3, [fs1, fs2, fs3])
      else
        (.ok (), fs3.rename tmp path, [fs1, fs2, fs3, fs3.rename tmp path])

/-- `SaveData2` as the caller sees it: result and final filesystem. -/
def SaveData2 (path file : String) (data : Content) (fs : FS) (o : Oracle) :
    Except GoError Unit × FS :=
  ((SaveData2Run path file data fs o).1, (SaveData2Run path file data fs o).2.1)

/-- The empty filesystem. -/
def fsE : FS := ⟨fun _ => none, fun _ => false⟩

/-- A filesystem whose only file is the target `d/f` with content `[0]`. -/
def fs0 : FS := ⟨fun p => if p = "d/f" then some [0] else none, fun _ => false⟩

/-- An environment in which every system call succeeds. -/
def oAllOk : Oracle := ⟨7, true, true, 100, false, true, true⟩

/-- An environment identical to `oAllOk` but with stamp 9. -/
def oAllOk9 : Oracle := ⟨9, true, true, 100, false, true, true⟩

/-- All-success environments with stamps 1 and 2, for two consecutive calls. -/
def oB1 : Oracle := ⟨1, true, true, 100, false, true, true⟩

/-- Second all-success environment, stamp 2. -/
def oB2 : Oracle := ⟨2, true, true, 100, false, true, true⟩

/-- An environment in which the durability flush fails. -/
def oSyncFail : Oracle := ⟨3, true, true, 100, false, false, true⟩

/-- An environment in which the write transfers only one byte. -/
def oShortWrite : Oracle := ⟨4, true, true, 1, false, true, true⟩

/-- An environment in which directory creation fails. -/
def oMkdirFail : Oracle := ⟨5, false, true, 100, false, true, true⟩

/-- A filesystem already holding a file named like the stamp-7 temporary. -/
def fsT : FS :=
  ⟨fun p => if p = "d/f.tmp.7" then some [9] else none, fun _ => false⟩

theorem FS.read_mkdirAll (fs : FS) (d p : String) :
    (fs.mkdirAll d).read p = fs.read p := rfl

theorem FS.read_writeFile (fs : FS) (q : String) (c : Content) (p : String) :
    (fs.writeFile q c).read p = if p = q then some c else fs.read p := rfl

theorem FS.read_removeFile (fs : FS) (q p : String) :
    (fs.removeFile q).read p = if p = q then none else fs.read p := rfl

theorem FS.fileExists_mkdirAll (fs : FS) (d p : String) :
    (fs.mkdirAll d).fileExists p = fs.fileExists p := rfl

theorem FS.isDir_writeFile (fs : FS) (q : String) (c : Content) (p : String) :
    (fs.writeFile q c).isDir p = fs.isDir p := rfl

theorem FS.isDir_mkdirAll_self (fs : FS) (d : String) :
    (fs.mkdirAll d).isDir d = true := by
  simp [FS.isDir, FS.mkdirAll]

/-- The temporary name is strictly longer than the target path, hence
distinct from it. -/
theorem tmpName_ne_target (path file : String) (stamp : Nat) :
    tmpName path file stamp ≠ path ++ file := by
  intro h
  have hl : (tmpName path file stamp).length = (path ++ file).length :=
    congrArg String.length h
  have h5 : (".tmp." : String).length = 5 := rfl
  simp [tmpName, String.length_append, h5] at hl
  omega

/-- Every state a `SaveData2` call goes through — initial, intermediate or
final — agrees with the initial filesystem on every path other than the
temporary one: all the operations the call can actually reach create, write
or delete only the temporary file.  (The rename-success branch would touch
`path`, but its destination is the directory `MkdirAll` just ensured, so the
rename never succeeds.) -/
theorem saveData2Run_touches_only_tmp (path file : String) (data : Content)
    (fs : FS) (o : Oracle) (s : FS)
    (hs : s ∈ fs :: (SaveData2Run path file data fs o).2.2)
    (p : String) (hp : p ≠ tmpName path file o.stamp) :
    s.read p = fs.read p := by
  by_cases h1 : o.mkdirOk = false
  · have htr : (SaveData2Run path file data fs o).2.2 = [] := by
      simp only [SaveData2Run]
      rw [if_pos h1]
    rw [htr] at hs
    simp at hs
    subst hs; rfl
  · by_cases h2 : o.openOk = false ∨
        (fs.mkdirAll path).isDir (tmpName path file o.stamp) = true ∨
        (fs.mkdirAll path).fileExists (tmpName path file o.stamp) = true
    · have htr : (SaveData2Run path file data fs o).2.2 =
          [fs.mkdirAll path] := by
        simp only [SaveData2Run]
        rw [if_neg h1, if_pos h2]
      rw [htr] at hs
      simp at hs
      rcases hs with hs | hs <;> subst hs <;> rfl
    · by_cases h3 : o.writeIOErr = true ∨
          min o.nWritten data.length < data.length
      · have htr : (SaveData2Run path file data fs o).2.2 =
            [fs.mkdirAll path,
             (fs.mkdirAll path).writeFile (tmpName path file o.stamp) [],
             ((fs.mkdirAll path).writeFile (tmpName path file o.stamp)
               []).writeFile (tmpName path file o.stamp)
               (data.take (min o.nWritten data.length)),
             (((fs.mkdirAll path).writeFile (tmpName path file o.stamp)
               []).writeFile (tmpName path file o.stamp)
               (data.take (min o.nWritten data.length))).removeFile
               (tmpName path file o.stamp)] := by
          simp only [SaveData2Run]
          rw [if_neg h1, if_neg h2, if_pos h3]
        rw [htr] at hs
        simp at hs
        rcases hs with hs | hs | hs | hs | hs <;> subst hs <;>
          simp [FS.read_mkdirAll, FS.read_writeFile, FS.read_removeFile, hp]
      · by_cases h4 : o.syncOk = false
        · have htr : (SaveData2Run path file data fs o).2.2 =
              [fs.mkdirAll path,
               (fs.mkdirAll path).writeFile (tmpName path file o.stamp) [],
               ((fs.mkdirAll path).writeFile (tmpName path file o.stamp)
                 []).writeFile (tmpName path file o.stamp)
                 (data.take (min o.nWritten data.length)),
               (((fs.mkdirAll path).writeFile (tmpName path file o.stamp)
                 []).writeFile (tmpName path file o.stamp)
                 (data.take (min o.nWritten data.length))).removeFile
                 (tmpName path file o.stamp)] := by
            simp only [SaveData2Run]
            rw [if_neg h1, if_neg h2, if_neg h3, if_pos h4]
          rw [htr] at hs
          simp at hs
          rcases hs with hs | hs | hs | hs | hs <;> subst hs <;>
            simp [FS.read_mkdirAll, FS.read_writeFile, FS.read_removeFile, hp]
        · have h5 : (((fs.mkdirAll path).writeFile (tmpName path file o.stamp)
              []).writeFile (tmpName path file o.stamp)
              (data.take (min o.nWritten data.length))).isDir path = true ∨
              o.renameOsOk = false := by
            left
            simp [FS.isDir_writeFile, FS.isDir_mkdirAll_self]
          have htr : (SaveData2Run path file data fs o).2.2 =
              [fs.mkdirAll path,
               (fs.mkdirAll path).writeFile (tmpName path file o.stamp) [],
               ((fs.mkdirAll path).writeFile (tmpName path file o.stamp)
                 []).writeFile (tmpName path file o.stamp)
                 (data.take (min o.nWritten data.length))] := by
            simp only [SaveData2Run]
            rw [if_neg h1, if_neg h2, if_neg h3, if_neg h4, if_pos h5]
          rw [htr] at hs
          simp at hs
          rcases hs with hs | hs | hs | hs <;> subst hs <;>
            simp [FS.read_mkdirAll, FS.read_writeFile, hp]

/-- C10: if ensuring the directory fails, both SaveData1 (InPlaceWriter) and
SaveData2 (AtomicReplaceWriter) return the `FolderErr` sentinel before any
file is created, opened or modified: the filesystem is returned completely
unchanged. -/
theorem save_mkdirAll_failure (path file : String) (data : Content)
    (fs : FS) (o : Oracle) (hm : o.mkdirOk = false) :
    SaveData1 path file data fs o = (.error .folderErr, fs) ∧
    SaveData2 path file data fs o = (.error .folderErr, fs) := by
  constructor
  · simp only [SaveData1]
    rw [if_pos hm]
  · simp only [SaveData2, SaveData2Run]
    rw [if_pos hm]

/-- Witness for C10 at a concrete input. -/
theorem save_mkdirAll_failure_witness :
    SaveData1 "d/" "f" [1] fsE oMkdirFail = (.error .folderErr, fsE) ∧
    SaveData2 "d/" "f" [1] fsE oMkdirFail = (.error .folderErr, fsE) :=
  save_mkdirAll_failure "d/" "f" [1] fsE oMkdirFail rfl

/-- C5: exclusive create: if a file with the generated temporary name already
exists, the exclusive-create open fails, SaveData2 returns the `OpenErr`
sentinel, and every file — in particular the pre-existing file of that name —
keeps its exact pre-call content (no truncation, no alteration). -/
theorem saveData2_exclusive_create (path file : String) (data : Content)
    (fs : FS) (o : Oracle) (hm : o.mkdirOk = true)
    (he : fs.fileExists (tmpName path file o.stamp) = true) :
    (SaveData2 path file data fs o).1 = .error .openErr ∧
    ∀ p, (SaveData2 path file data fs o).2.read p = fs.read p := by
  have h1 : ¬ o.mkdirOk = false := by simp [hm]
  have h2 : o.openOk = false ∨
      (fs.mkdirAll path).isDir (tmpName path file o.stamp) = true ∨
      (fs.mkdirAll path).fileExists (tmpName path file o.stamp) = true :=
    Or.inr (Or.inr (by rw [FS.fileExists_mkdirAll]; exact he))
  have hrun : SaveData2Run path file data fs o =
      (.error .openErr, fs.mkdirAll path, [fs.mkdirAll path]) := by
    simp only [SaveData2Run]
    rw [if_neg h1, if_pos h2]
  constructor
  · simp only [SaveData2]
    rw [hrun]
  · intro p
    simp only [SaveData2]
    rw [hrun]
    rfl

/-- Witness for C5 at a concrete input: temp name "d/f.tmp.7" already
present with content [9]; it is untouched. -/
theorem saveData2_exclusive_create_witness :
    (SaveData2 "d/" "f" [1] fsT oAllOk).1 = .error .openErr ∧
    (SaveData2 "d/" "f" [1] fsT oAllOk).2.read "d/f.tmp.7" =
      fsT.read "d/f.tmp.7" := by
  have h := saveData2_exclusive_create "d/" "f" [1] fsT oAllOk rfl (by decide)
  exact ⟨h.1, h.2 "d/f.tmp.7"⟩

/-- C3: if the payload write or the flush fails in SaveData2, the call
returns the corresponding sentinel (`WriteErr` for a write failure,
`SyncErr` for a flush failure), no temporary file remains afterward, and
every file — in particular a pre-existing target — has exactly its pre-call
content. -/
theorem saveData2_write_or_sync_failure_cleanup (path file : String)
    (data : Content) (fs : FS) (o : Oracle)
    (hm : o.mkdirOk = true) (ho : o.openOk = true)
    (hd : (fs.mkdirAll path).isDir (tmpName path file o.stamp) = false)
    (he : fs.fileExists (tmpName path file o.stamp) = false)
    (hfail : (o.writeIOErr = true ∨ min o.nWritten data.length < data.length) ∨
      o.syncOk = false) :
    (SaveData2 path file data fs o).1 =
      .error (if o.writeIOErr = true ∨ min o.nWritten data.length < data.length
        then GoError.writeErr else GoError.syncErr) ∧
    (SaveData2 path file data fs o).2.fileExists
      (tmpName path file o.stamp) = false ∧
    ∀ p, (SaveData2 path file data fs o).2.read p = fs.read p := by
  have h1 : ¬ o.mkdirOk = false := by simp [hm]
  have h2 : ¬ (o.openOk = false ∨
      (fs.mkdirAll path).isDir (tmpName path file o.stamp) = true ∨
      (fs.mkdirAll path).fileExists (tmpName path file o.stamp) = true) := by
    simp [ho, hd, FS.fileExists_mkdirAll, he]
  have htmp : fs.read (tmpName path file o.stamp) = none := by
    unfold FS.fileExists at he
    cases hfe : fs.files (tmpName path file o.stamp) with
    | none => exact hfe
    | some c => rw [hfe] at he; simp at he
  have hfinal : ∀ p,
      ((((fs.mkdirAll path).writeFile (tmpName path file o.stamp)
        []).writeFile (tmpName path file o.stamp)
        (data.take (min o.nWritten data.length))).removeFile
        (tmpName path file o.stamp)).read p = fs.read p := by
    intro p
    by_cases hp : p = tmpName path file o.stamp
    · subst hp
      rw [FS.read_removeFile, if_pos rfl, htmp]
    · rw [FS.read_removeFile, if_neg hp, FS.read_writeFile, if_neg hp,
        FS.read_writeFile, if_neg hp, FS.read_mkdirAll]
  have hgone :
      ((((fs.mkdirAll path).writeFile (tmpName path file o.stamp)
        []).writeFile (tmpName path file o.stamp)
        (data.take (min o.nWritten data.length))).removeFile
        (tmpName path file o.stamp)).fileExists
        (tmpName path file o.stamp) = false := by
    simp [FS.fileExists, FS.removeFile]
  by_cases h3 : o.writeIOErr = true ∨ min o.nWritten data.length < data.length
  · have hrun : SaveData2Run path file data fs o =
        (.error .writeErr,
         (((fs.mkdirAll path).writeFile (tmpName path file o.stamp)
           []).writeFile (tmpName path file o.stamp)
           (data.take (min o.nWritten data.length))).removeFile
           (tmpName path file o.stamp),
         [fs.mkdirAll path,
          (fs.mkdirAll path).writeFile (tmpName path file o.stamp) [],
          ((fs.mkdirAll path).writeFile (tmpName path file o.stamp)
            []).writeFile (tmpName path file o.stamp)
            (data.take (min o.nWritten data.length)),
          (((fs.mkdirAll path).writeFile (tmpName path file o.stamp)
            []).writeFile (tmpName path file o.stamp)
            (data.take (min o.nWritten data.length))).removeFile
            (tmpName path file o.stamp)]) := by
      simp only [SaveData2Run]
      rw [if_neg h1, if_neg h2, if_pos h3]
    refine ⟨?_, ?_, ?_⟩
    · simp only [SaveData2]
      rw [hrun, if_pos h3]
    · simp only [SaveData2]
      rw [hrun]
      exact hgone
    · intro p
      simp only [SaveData2]
      rw [hrun]
      exact hfinal p
  · have h4 : o.syncOk = false := by
      rcases hfail with hfail | hfail
      · exact absurd hfail h3
      · exact hfail
    have hrun : SaveData2Run path file data fs o =
        (.error .syncErr,
         (((fs.mkdirAll path).writeFile (tmpName path file o.stamp)
           []).writeFile (tmpName path file o.stamp)
           (data.take (min o.nWritten data.length))).removeFile
           (tmpName path file o.stamp),
         [fs.mkdirAll path,
          (fs.mkdirAll path).writeFile (tmpName path file o.stamp) [],
          ((fs.mkdirAll path).writeFile (tmpName path file o.stamp)
            []).writeFile (tmpName path file o.stamp)
            (data.take (min o.nWritten data.length)),
          (((fs.mkdirAll path).writeFile (tmpName path file o.stamp)
            []).writeFile (tmpName path file o.stamp)
            (data.take (min o.nWritten data.length))).removeFile
            (tmpName path file o.stamp)]) := by
      simp only [SaveData2Run]
      rw [if_neg h1, if_neg h2, if_neg h3, if_pos h4]
    refine ⟨?_, ?_, ?_⟩
    · simp only [SaveData2]
      rw [hrun, if_neg h3]
    · simp only [SaveData2]
      rw [hrun]
      exact hgone
    · intro p
      simp only [SaveData2]
      rw [hrun]
      exact hfinal p

/-- Witness for C3 at a concrete input: flush fails, pre-existing target
"d/f" and the whole filesystem are untouched and no temp file remains. -/
theorem saveData2_write_or_sync_failure_cleanup_witness :
    (SaveData2 "d/" "f" [1, 2] fs0 oSyncFail).1 = .error GoError.syncErr ∧
    (SaveData2 "d/" "f" [1, 2] fs0 oSyncFail).2.fileExists
      (tmpName "d/" "f" oSyncFail.stamp) = false ∧
    (SaveData2 "d/" "f" [1, 2] fs0 oSyncFail).2.read "d/f" =
      fs0.read "d/f" := by
  have h := saveData2_write_or_sync_failure_cleanup "d/" "f" [1, 2] fs0
    oSyncFail rfl rfl (by decide) (by decide) (Or.inr rfl)
  refine ⟨?_, h.2.1, h.2.2 "d/f"⟩
  have h1 := h.1
  rw [if_neg (by decide)] at h1
  exact h1

/-- C6: a payload write that fails or transfers fewer bytes than the payload
length makes both SaveData1 (InPlaceWriter) and SaveData2
(AtomicReplaceWriter) return the `WriteErr` sentinel. -/
theorem save_short_or_failed_write_returns_writeErr (path file : String)
    (data : Content) (fs : FS) (o : Oracle)
    (hm : o.mkdirOk = true) (ho : o.openOk = true)
    (hd1 : (fs.mkdirAll path).isDir (path ++ file) = false)
    (hd2 : (fs.mkdirAll path).isDir (tmpName path file o.stamp) = false)
    (he2 : fs.fileExists (tmpName path file o.stamp) = false)
    (hw : o.writeIOErr = true ∨ min o.nWritten data.length < data.length) :
    (SaveData1 path file data fs o).1 = .error .writeErr ∧
    (SaveData2 path file data fs o).1 = .error .writeErr := by
  have h1 : ¬ o.mkdirOk = false := by simp [hm]
  have h2a : ¬ (o.openOk = false ∨
      (fs.mkdirAll path).isDir (path ++ file) = true) := by
    simp [ho, hd1]
  have h2b : ¬ (o.openOk = false ∨
      (fs.mkdirAll path).isDir (tmpName path file o.stamp) = true ∨
      (fs.mkdirAll path).fileExists (tmpName path file o.stamp) = true) := by
    simp [ho, hd2, FS.fileExists_mkdirAll, he2]
  constructor
  · simp only [SaveData1]
    rw [if_neg h1, if_neg h2a, if_pos hw]
  · simp only [SaveData2, SaveData2Run]
    rw [if_neg h1, if_neg h2b, if_pos hw]

/-- Witness for C6 at a concrete input: the OS transfers 1 of 3 bytes. -/
theorem save_short_write_witness :
    (SaveData1 "d/" "f" [1, 2, 3] fsE oShortWrite).1 = .error .writeErr ∧
    (SaveData2 "d/" "f" [1, 2, 3] fsE oShortWrite).1 = .error .writeErr :=
  save_short_or_failed_write_returns_writeErr "d/" "f" [1, 2, 3] fsE
    oShortWrite rfl rfl (by decide) (by decide) (by decide)
    (Or.inr (by decide))

/-- C7 counterexample: with the directory ensured, the file opened and the
payload fully written, a failing flush makes SaveData1 return the raw sync
error, which is not the `SyncErr` sentinel — the claim that the call returns
the SyncError kind fails at this input. -/
theorem saveData1_sync_not_sentinel :
    (SaveData1 "d/" "f" [1] fsE oSyncFail).1 = .error (.osErr "sync") ∧
    (SaveData1 "d/" "f" [1] fsE oSyncFail).1 ≠ .error GoError.syncErr := by
  decide

/-- C7 amended: when the flush fails in SaveData1 after a successful
directory-ensure, open and full write, the call returns an error — the raw
error value of the sync operation, passed through unmapped — rather than the
`SyncErr` sentinel. -/
theorem saveData1_sync_failure_returns_raw_error (path file : String)
    (data : Content) (fs : FS) (o : Oracle)
    (hm : o.mkdirOk = true) (ho : o.openOk = true)
    (hd : (fs.mkdirAll path).isDir (path ++ file) = false)
    (hw1 : o.writeIOErr = false) (hw2 : data.length ≤ o.nWritten)
    (hs : o.syncOk = false) :
    (SaveData1 path file data fs o).1 = .error (.osErr "sync") := by
  have h1 : ¬ o.mkdirOk = false := by simp [hm]
  have h2 : ¬ (o.openOk = false ∨
      (fs.mkdirAll path).isDir (path ++ file) = true) := by
    simp [ho, hd]
  have h3 : ¬ (o.writeIOErr = true ∨
      min o.nWritten data.length < data.length) := by
    simp only [hw1]
    simp only [Bool.false_eq_true, false_or]
    omega
  simp only [SaveData1]
  rw [if_neg h1, if_neg h2, if_neg h3, if_pos hs]

/-- Witness for the amended C7 at a concrete input. -/
theorem saveData1_sync_failure_witness :
    (SaveData1 "d/" "g" [2] fsE oSyncFail).1 = .error (.osErr "sync") :=
  saveData1_sync_failure_returns_raw_error "d/" "g" [2] fsE oSyncFail rfl rfl
    (by decide) rfl (by decide) rfl

/-- C1 failing input: with every system call succeeding, a pre-existing
target "d/f" = [0] and payload [1], SaveData2 does not install the payload at
the target: the final `os.Rename(tmp, path)` names the directory string "d/"
as destination — not "d/f" — so the OS rejects it, the call returns the raw
rename error, and the target keeps its old content. -/
theorem saveData2_success_path_broken :
    (SaveData2 "d/" "f" [1] fs0 oAllOk).1 = .error (.osErr "rename") ∧
    (SaveData2 "d/" "f" [1] fs0 oAllOk).2.read "d/f" = some [0] ∧
    (SaveData2 "d/" "f" [1] fs0 oAllOk).2.read "d/f" ≠ some [1] := by
  decide

/-- C2 failing input: all steps up to the rename succeed, the rename fails,
its error is returned to the caller — but the temporary file is not deleted:
the deferred cleanup tests the local `err`, which the final
`return os.Rename(tmp, path)` never assigns, so an orphaned temp file
remains. -/
theorem saveData2_rename_failure_orphans_tmp :
    (SaveData2 "a/" "b" [2] fsE oAllOk9).1 = .error (.osErr "rename") ∧
    (SaveData2 "a/" "b" [2] fsE oAllOk9).2.fileExists
      (tmpName "a/" "b" 9) = true := by
  decide

/-- C4 failing input: two consecutive SaveData2 calls with the same payload
[3] in a fully cooperative environment leave the target "p/q" without the
payload (both final renames name the directory and fail) and leave both
temporary files behind. -/
theorem saveData2_double_save_not_idempotent :
    (SaveData2 "p/" "q" [3]
      (SaveData2 "p/" "q" [3] fsE oB1).2 oB2).2.read "p/q" ≠ some [3] ∧
    (SaveData2 "p/" "q" [3]
      (SaveData2 "p/" "q" [3] fsE oB1).2 oB2).2.fileExists
      (tmpName "p/" "q" 1) = true ∧
    (SaveData2 "p/" "q" [3]
      (SaveData2 "p/" "q" [3] fsE oB1).2 oB2).2.fileExists
      (tmpName "p/" "q" 2) = true := by
  decide

/-- C8: atomic visibility for SaveData2: at every instant of a save — the
initial state and every state after each state-changing step — the content a
reader opening the target path `path ++ file` observes equals either the
complete pre-call content or the complete payload, never a truncated or
mixed value (every write before the rename goes to the temporary path, which
differs from the target path). -/
theorem saveData2_atomic_visibility (path file : String) (data : Content)
    (fs : FS) (o : Oracle) (s : FS)
    (hs : s ∈ fs :: (SaveData2Run path file data fs o).2.2) :
    s.read (path ++ file) = fs.read (path ++ file) ∨
      s.read (path ++ file) = some data :=
  Or.inl (saveData2Run_touches_only_tmp path file data fs o s hs (path ++ file)
    (Ne.symm (tmpName_ne_target path file o.stamp)))

/-- Witness for C8 at a concrete input: the initial instant of a save over a
pre-existing target. -/
theorem saveData2_atomic_visibility_witness :
    fs0.read ("d/" ++ "f") = fs0.read ("d/" ++ "f") ∨
      fs0.read ("d/" ++ "f") = some [1] :=
  saveData2_atomic_visibility "d/" "f" [1] fs0 oAllOk fs0
    (List.mem_cons_self _ _)

/-- C9: the temporary path equals the target path followed by ".tmp." and
the decimal stamp, hence never equals the target path itself; and every
state a SaveData2 call passes through agrees with the initial filesystem on
every path other than the temporary one — the operations before the final
rename open, write, sync and delete only the temporary path and never touch
the target file. -/
theorem saveData2_tmp_distinct_and_only_tmp_touched (path file : String)
    (data : Content) (fs : FS) (o : Oracle) :
    tmpName path file o.stamp = path ++ file ++ ".tmp." ++ toString o.stamp ∧
    tmpName path file o.stamp ≠ path ++ file ∧
    ∀ s ∈ fs :: (SaveData2Run path file data fs o).2.2,
      ∀ p, p ≠ tmpName path file o.stamp → s.read p = fs.read p :=
  ⟨rfl, tmpName_ne_target path file o.stamp,
   fun s hs p hp => saveData2Run_touches_only_tmp path file data fs o s hs p hp⟩

/-- Witness for C9 at a concrete input. -/
theorem saveData2_tmp_distinct_witness :
    tmpName "d/" "f" oAllOk.stamp ≠ "d/" ++ "f" ∧
    fs0.read "d/f" = fs0.read "d/f" := by
  have h := saveData2_tmp_distinct_and_only_tmp_touched "d/" "f" [1] fs0 oAllOk
  exact ⟨h.2.1, h.2.2 fs0 (List.mem_cons_self _ _) "d/f" (by decide)⟩
